import Mathlib

/-!
Verification of the jumper.vscode Live Query and Usage-Tracking Bridge.

The definitions below are a shallow embedding of the extension's JavaScript
modules: `database.js` (getWeight, shouldTrackFile, updateDatabase,
buildJumperCommand, executeJumper), `commands.js` (expandTilde,
createJumperQuickPick, jumpToFile, pickFileInDirectory, jumpToDirectory)
and `extension.js` (debounce, createActiveEditorTracker).  External
collaborators (the jumper process, the VS Code widget and filesystem) are
modelled as explicit inputs/outputs: each embedded operation returns the
external calls it would make instead of performing them.
-/

namespace JumperBridge

/-- Boolean contiguous-sublist test, used to model JS
`String.prototype.includes`. -/
def listInfixOf (needle : List Char) : List Char → Bool
  | [] => needle.isEmpty
  | c :: rest => needle.isPrefixOf (c :: rest) || listInfixOf needle rest

/-- JavaScript `hay.includes(needle)`, modelled over the character list of a
Lean string so that every operation reduces in the kernel. -/
def strIncludes (hay needle : String) : Bool :=
  listInfixOf needle.data hay.data

/-- Whitespace for the purposes of `String.prototype.trim` (the characters
that occur in this code base's data). -/
def isWs (c : Char) : Bool :=
  c = ' ' || c = '\t' || c = '\n' || c = '\r'

/-- JS `s.trim()`: strip whitespace from both ends. -/
def jsTrim (s : String) : String :=
  ⟨((s.data.dropWhile isWs).reverse.dropWhile isWs).reverse⟩

/-- Accumulator loop for `splitChar`. -/
def splitCharAux (sep : Char) : List Char → List Char → List String
  | [], acc => [⟨acc.reverse⟩]
  | c :: rest, acc =>
    if c = sep then ⟨acc.reverse⟩ :: splitCharAux sep rest []
    else splitCharAux sep rest (c :: acc)

/-- JS `s.split(sep)` for a one-character separator. -/
def splitChar (sep : Char) (s : String) : List String :=
  splitCharAux sep s.data []

/-- JS `s.startsWith(pre)`. -/
def jsStartsWith (s pre : String) : Bool :=
  pre.data.isPrefixOf s.data

/-- Drop the first `n` characters of a string. -/
def strDrop (s : String) (n : Nat) : String :=
  ⟨s.data.drop n⟩

/-- JS `Array.prototype.join(sep)`. -/
def joinWith (sep : String) : List String → String
  | [] => ""
  | [x] => x
  | x :: y :: xs => x ++ sep ++ joinWith sep (y :: xs)

/-- Node `path.basename`: the final path segment, ignoring trailing
separators. -/
def basename (p : String) : String :=
  ⟨((p.data.reverse.dropWhile (fun c => c = '/')).takeWhile
      (fun c => !(c = '/'))).reverse⟩

/-- The two categories of the jumper database (`--type=` argument). -/
inductive Category where
  | files
  | directories
deriving DecidableEq, Repr

/-- The `--type=` value sent to the jumper process. -/
def Category.str : Category → String
  | .files => "files"
  | .directories => "directories"

/-- The per-event-kind weights of the `jumper.weights` configuration
section, as read by `getWeight` in `database.js`. -/
structure Weights where
  visit : Rat
  manualSave : Rat
  autoSave : Rat
  activeEditor : Rat
deriving DecidableEq, Repr

/-- The configuration keys `getWeight` is called with. -/
inductive WeightKind where
  | visit
  | manualSave
  | autoSave
  | activeEditor
deriving DecidableEq, Repr

/-- The `jumper.*` configuration snapshot read by the bridge. `maxResults`
is `none` for the `no_limit` setting. -/
structure JumperConfig where
  excludePatterns : List String
  weights : Weights
  maxResults : Option Nat
  homeTilde : Bool
  relative : Bool
  syntaxMode : String
  caseSensitivity : String
deriving DecidableEq, Repr

/-- `getWeight` from `database.js`: look the event kind up in the
`jumper.weights` configuration. -/
def getWeight (cfg : JumperConfig) : WeightKind → Rat
  | .visit => cfg.weights.visit
  | .manualSave => cfg.weights.manualSave
  | .autoSave => cfg.weights.autoSave
  | .activeEditor => cfg.weights.activeEditor

/-- `shouldTrackFile` from `database.js`: reject empty paths, paths
containing a colon (temporary buffers), and paths containing one of the
configured exclusion patterns (JS `filePath.includes(pattern)`). -/
def shouldTrackFile (cfg : JumperConfig) (filePath : String) : Bool :=
  if filePath = "" then false
  else if strIncludes filePath ":" then false
  else !(cfg.excludePatterns.any (fun pat => strIncludes filePath pat))

/-- One invocation of the external store's `jumper update` operation. -/
structure UpdateCall where
  path : String
  weight : Rat
  category : Category
deriving DecidableEq, Repr

/-- `updateDatabase` from `database.js`, as the external update call it
issues: `none` means the function returned without invoking the store
(the exec failure being swallowed is immaterial to which call is made). -/
def updateDatabase (cfg : JumperConfig) (pathToUpdate : String)
    (weight : Rat) (category : Category) : Option UpdateCall :=
  if pathToUpdate = "" then none
  else if category = Category.files ∧ shouldTrackFile cfg pathToUpdate = false then none
  else some { path := pathToUpdate, weight := weight, category := category }

/-- `buildJumperCommand` from `database.js`: assemble the `jumper find`
invocation from the configuration snapshot and the query text. -/
def buildJumperCommand (cfg : JumperConfig) (type : Category)
    (query : String) : String :=
  let args := ["jumper", "find", "--type=" ++ type.str]
  let args := match cfg.maxResults with
    | none => args
    | some n => args ++ ["-n", toString n]
  let args := if cfg.homeTilde then args ++ ["-H"] else args
  let args := if cfg.relative then args ++ ["-r"] else args
  let args := args ++ ["--syntax=" ++ cfg.syntaxMode]
  let args :=
    if cfg.caseSensitivity = "sensitive" then args ++ ["-S"]
    else if cfg.caseSensitivity = "insensitive" then args ++ ["-I"]
    else args
  let args := if query ≠ "" then args ++ ["\"" ++ query ++ "\""] else args
  joinWith " " args

/-- The ANSI escape character. -/
def escChar : Char := Char.ofNat 27

/-- Scanner state for `stripAnsiCodes`: outside any candidate escape, just
after an ESC, or inside `ESC [ [0-9;]*` with the body read so far. -/
inductive AnsiMode where
  | normal
  | afterEsc
  | inBody (buf : List Char)

/-- Left-to-right scan deleting every match of the JS regex
`\x1b\[[0-9;]*m`; a failed candidate match is emitted unchanged, exactly as
the global regex replace leaves it. -/
def stripAnsiGo : AnsiMode → List Char → List Char
  | .normal, [] => []
  | .afterEsc, [] => [escChar]
  | .inBody buf, [] => escChar :: '[' :: buf
  | .normal, c :: rest =>
    if c = escChar then stripAnsiGo .afterEsc rest
    else c :: stripAnsiGo .normal rest
  | .afterEsc, c :: rest =>
    if c = '[' then stripAnsiGo (.inBody []) rest
    else if c = escChar then escChar :: stripAnsiGo .afterEsc rest
    else escChar :: c :: stripAnsiGo .normal rest
  | .inBody buf, c :: rest =>
    if c = 'm' then stripAnsiGo .normal rest
    else if c.isDigit || c = ';' then stripAnsiGo (.inBody (buf ++ [c])) rest
    else if c = escChar then escChar :: '[' :: buf ++ stripAnsiGo .afterEsc rest
    else escChar :: '[' :: buf ++ c :: stripAnsiGo .normal rest

/-- `stripAnsiCodes` from the earlier `extension.js` revision:
`str.replace(new RegExp ANSI-color, '')`. -/
def stripAnsiCodes (s : String) : String :=
  ⟨stripAnsiGo .normal s.data⟩

/-- Output parsing of `executeJumper` in the current `database.js`:
`stdout.trim().split('\n').filter(line => line.length > 0)
.map(line => line.trim())`. -/
def parseJumperOutput (stdout : String) : List String :=
  ((splitChar '\n' (jsTrim stdout)).filter (fun l => 0 < l.length)).map jsTrim

/-- Output parsing of `executeJumper` in the earlier `extension.js`
revision, which additionally stripped ANSI codes:
`.map(line => stripAnsiCodes(line.trim()))`. -/
def parseJumperOutputLegacy (stdout : String) : List String :=
  ((splitChar '\n' (jsTrim stdout)).filter (fun l => 0 < l.length)).map
    (fun l => stripAnsiCodes (jsTrim l))

/-- Outcome of the external `jumper find` process: captured stdout, or a
thrown exec error (process missing, non-zero exit). -/
inductive ExecResult where
  | ok (stdout : String)
  | err (msg : String)
deriving DecidableEq, Repr

/-- What `executeJumper` hands back: a result that would be an exception if
the `Except` were ever `.error`, plus the diagnostic channel
(`console.error`) entries it wrote. -/
structure QueryOutcome where
  result : Except String (List String)
  diagnostics : List String
deriving Repr

/-- `executeJumper` from `database.js`: parse stdout on success; on any exec
failure the `catch` block logs a diagnostic and returns `[]` instead of
re-throwing. -/
def executeJumper (r : ExecResult) : QueryOutcome :=
  match r with
  | .ok stdout => { result := .ok (parseJumperOutput stdout), diagnostics := [] }
  | .err msg =>
    { result := .ok []
      diagnostics := ["Jumper command failed: " ++ msg] }

/-- One rendered row of the quick-pick widget, as built in
`createJumperQuickPick` (`commands.js`). -/
structure QuickPickItem where
  label : String
  description : String
  path : String
  alwaysShow : Bool
deriving DecidableEq, Repr

/-- The item `createJumperQuickPick` builds for one result path: label is
the basename, the description keeps the path (tilde included) for display,
`path` stores the original path, `alwaysShow` defeats widget filtering. -/
def renderItem (itemPath : String) : QuickPickItem :=
  { label := basename itemPath
    description := itemPath
    path := itemPath
    alwaysShow := true }

/-- `quickPick.items = results.map(...)` in `createJumperQuickPick`. -/
def renderItems (results : List String) : List QuickPickItem :=
  results.map renderItem

/-- One scheduler event inside a search session: `issue g` is the start of
the g-th `updateResults` call (its `executeJumper` await begins), and
`arrive g response` is that call resuming and executing
`quickPick.items = response.map(...)`.  The numbering is ghost
instrumentation used only to state the claims; the code itself carries no
generation tags. -/
inductive SessionEvent where
  | issue (g : Nat)
  | arrive (g : Nat) (response : List String)
deriving DecidableEq, Repr

/-- Session state: the rendered items (with the ghost generation of the
response they came from) and the ghost highest issued generation. -/
structure SessionState where
  highestIssued : Option Nat
  rendered : Option (Nat × List QuickPickItem)
deriving DecidableEq, Repr

/-- One step of the session: issuing a query only advances the ghost
counter; a response arriving executes the unconditional
`quickPick.items = ...` assignment from `updateResults` — the source
contains no staleness check before that assignment. -/
def sessionStep (s : SessionState) : SessionEvent → SessionState
  | .issue g =>
    let h : Nat :=
      match s.highestIssued with
      | none => g
      | some h0 => Nat.max h0 g
    { s with highestIssued := some h }
  | .arrive g response =>
    { s with rendered := some (g, renderItems response) }

/-- Run a session from the fresh-widget state. -/
def runSession (events : List SessionEvent) : SessionState :=
  events.foldl sessionStep { highestIssued := none, rendered := none }

/-- Observer for the amended C1 statement: the last `arrive` event of a
trace, if any. -/
def lastArrival : List SessionEvent → Option (Nat × List String)
  | [] => none
  | SessionEvent.issue _ :: rest => lastArrival rest
  | SessionEvent.arrive g r :: rest =>
    match lastArrival rest with
    | some x => some x
    | none => some (g, r)

/-- State of one `debounce(func, wait)` closure from `extension.js`: the
single pending timer slot (`timeout`), holding the scheduled fire time and
the captured `path` argument, plus the log of dispatched `func` calls as
(fire time, path) pairs. -/
structure DebounceState where
  pending : Option (Nat × String)
  fired : List (Nat × String)
deriving DecidableEq, Repr

/-- One call of the debounced function at time `call.1` with argument
`call.2`: a pending timer whose deadline has already passed fired before
this call could run; the call then clears any still-pending timer and
schedules a new one `delay` ms ahead carrying the latest argument. -/
def debStep (delay : Nat) (s : DebounceState) (call : Nat × String) :
    DebounceState :=
  let fired :=
    match s.pending with
    | some (ft, p) => if ft ≤ call.1 then s.fired ++ [(ft, p)] else s.fired
    | none => s.fired
  { pending := some (call.1 + delay, call.2), fired := fired }

/-- After the last call, no further call cancels the timer, so a pending
timer fires at its scheduled time. -/
def debFinish (s : DebounceState) : List (Nat × String) :=
  match s.pending with
  | some fp => s.fired ++ [fp]
  | none => s.fired

/-- All dispatches produced by a sequence of calls to one debounced
tracker (`createActiveEditorTracker`), letting the final timer settle. -/
def debRun (delay : Nat) (calls : List (Nat × String)) : List (Nat × String) :=
  debFinish (calls.foldl (debStep delay) { pending := none, fired := [] })

/-- Decidable form of the C2 hypothesis: call times strictly increase and
consecutive calls are separated by less than `delay`. -/
def rapidCalls (delay : Nat) : List (Nat × String) → Bool
  | a :: b :: rest =>
    decide (a.1 < b.1) && decide (b.1 < a.1 + delay) && rapidCalls delay (b :: rest)
  | _ => true

/-- `expandTilde` from `commands.js`: under the `startsWith('~')` guard, JS
`filePath.replace('~', home)` replaces the leading tilde with the home
directory. -/
def expandTilde (home : String) (filePath : String) : String :=
  if jsStartsWith filePath "~" then home ++ strDrop filePath 1 else filePath

/-- `MAX_FILES_IN_DIRECTORY` from `commands.js`. -/
def MAX_FILES_IN_DIRECTORY : Nat := 1000

/-- The single `workspace.findFiles` request issued by
`pickFileInDirectory`. -/
structure ListingRequest where
  base : String
  includeGlob : String
  excludeGlob : String
  cap : Nat
deriving DecidableEq, Repr

/-- The listing request `pickFileInDirectory` builds: recursive pattern
under the directory, the configured exclude patterns joined into one brace
glob, capped at `MAX_FILES_IN_DIRECTORY`. -/
def pickFileRequest (excludePatterns : List String) (dirPath : String) :
    ListingRequest :=
  { base := dirPath
    includeGlob := "**/*"
    excludeGlob := "\x7b" ++ joinWith "," excludePatterns ++ "\x7d"
    cap := MAX_FILES_IN_DIRECTORY }

/-- Node `path.relative(base, p)` for a file below `base`, the only shape
`findFiles` returns here. -/
def relativeTo (base p : String) : String :=
  if jsStartsWith p (base ++ "/") then strDrop p (base.length + 1) else p

/-- One row of the nested (one-shot) directory pick. -/
structure NestedItem where
  label : String
  description : String
  fsPath : String
deriving DecidableEq, Repr

/-- The item `pickFileInDirectory` builds for one listed file. -/
def nestedItem (dirPath fsPath : String) : NestedItem :=
  { label := basename fsPath
    description := relativeTo dirPath fsPath
    fsPath := fsPath }

/-- External calls observable from the selection continuations: opening a
file, a `jumper update`, a one-shot `findFiles` listing, a live
`jumper find` query, a static quick pick, an information message. -/
inductive Effect where
  | openFile (path : String)
  | updateDb (call : UpdateCall)
  | listing (req : ListingRequest)
  | jumperFind (category : Category) (query : String)
  | showStaticPick (items : List NestedItem)
  | showMessage (msg : String)
deriving DecidableEq, Repr

/-- Whether an effect is a `findFiles` listing. -/
def Effect.isListing : Effect → Bool
  | .listing _ => true
  | _ => false

/-- Whether an effect is a live `jumper find` query. -/
def Effect.isJumperFind : Effect → Bool
  | .jumperFind _ _ => true
  | _ => false

/-- `pickFileInDirectory` from `commands.js` as its effect trace, with the
external filesystem's reply to the single `findFiles` request passed in as
`files`: if nothing was listed it shows a message, otherwise it shows a
one-shot static pick of the listed files.  No `jumper find` query is ever
issued from here. -/
def pickFileInDirectoryEffects (cfg : JumperConfig) (dirPath : String)
    (files : List String) : List Effect :=
  let req := pickFileRequest cfg.excludePatterns dirPath
  if files.length = 0 then
    [Effect.listing req, Effect.showMessage ("No files found in " ++ dirPath)]
  else
    [Effect.listing req,
     Effect.showStaticPick (files.map (nestedItem dirPath))]

/-- The `onSelect` continuation of `jumpToFile`: open the tilde-expanded
path. -/
def jumpToFileOnSelect (home filePath : String) : List Effect :=
  [Effect.openFile (expandTilde home filePath)]

/-- The `onSelect` continuation of `jumpToDirectory`: expand the tilde,
record a directory visit via `updateDatabase`, then run the nested pick in
the expanded directory (`files` is the filesystem's reply to its listing
request). -/
def jumpToDirectoryOnSelect (cfg : JumperConfig) (home dirPath : String)
    (files : List String) : List Effect :=
  let expanded := expandTilde home dirPath
  let updates :=
    match updateDatabase cfg expanded (getWeight cfg .visit) .directories with
    | some c => [Effect.updateDb c]
    | none => []
  updates ++ pickFileInDirectoryEffects cfg expanded files

/-- Glob matching within one path segment, following the spec's words: `*`
matches any run of characters inside the segment, `?` a single character,
anything else itself.  (`pat * rest` matches `s` exactly when `rest` matches
some suffix of `s`.) -/
def charsMatch : List Char → List Char → Bool
  | [], s => s.isEmpty
  | '*' :: ps, s => s.tails.any (fun t => charsMatch ps t)
  | '?' :: _, [] => false
  | '?' :: ps, _ :: rest => charsMatch ps rest
  | _ :: _, [] => false
  | c :: ps, d :: rest => (c == d) && charsMatch ps rest

/-- Segment-wise glob matching: a `**` segment matches any number of path
segments (so `** :: rest` matches exactly when `rest` matches some suffix
of the segment list); any other pattern segment must match one path segment
via `charsMatch`. -/
def segMatch : List String → List String → Bool
  | [], s => s.isEmpty
  | "**" :: ps, s => s.tails.any (fun t => segMatch ps t)
  | _ :: _, [] => false
  | p :: ps, seg :: rest => charsMatch p.data seg.data && segMatch ps rest

/-- Modelled from the spec: the spec's "matches a configured exclusion
glob" relation (section 4.2), with the glob semantics the same
configuration key carries into the `findFiles` exclude argument — `**`
crossing segment boundaries, `*` and `?` within a segment.  This is the
spec-side relation the C3 claim quantifies over; the code's own filter
(`shouldTrackFile`) tests substring containment instead. -/
def specGlobMatch (pattern str : String) : Bool :=
  segMatch (splitChar '/' pattern) (splitChar '/' str)

/-! ## Shared helper lemmas and concrete fixtures -/

/-- A representative configuration snapshot used by the concrete witness
statements. -/
def demoConfig : JumperConfig :=
  { excludePatterns := ["node_modules", ".git"]
    weights := { visit := 1, manualSave := 1, autoSave := 1, activeEditor := 1 }
    maxResults := some 300
    homeTilde := true
    relative := false
    syntaxMode := "extended"
    caseSensitivity := "default" }

/-- A configuration whose exclusion list holds a glob-format pattern — the
format the same `jumper.excludePatterns` key must use for the `findFiles`
exclude argument (`pickFileInDirectory` reads it as "already in glob
format"). -/
def globConfig : JumperConfig :=
  { excludePatterns := ["**/node_modules/**"]
    weights := { visit := 1, manualSave := 1, autoSave := 1, activeEditor := 1 }
    maxResults := some 300
    homeTilde := true
    relative := false
    syntaxMode := "extended"
    caseSensitivity := "default" }

/-- Booleans: a string has positive length exactly when it is non-empty. -/
theorem str_length_pos_eq_ne_empty (s : String) :
    (decide (0 < s.length)) = (decide (s ≠ "")) := by
  by_cases h : s = ""
  · subst h; rfl
  · have hpos : 0 < s.length := by
      cases s with
      | mk data =>
        cases data with
        | nil => exact absurd rfl h
        | cons c cs => simp [String.length]
    simp [h, hpos]

/-- A non-empty directory path is always forwarded by `updateDatabase`:
for the `directories` category only the empty-path guard applies. -/
theorem updateDatabase_directories_eq (cfg : JumperConfig) (w : Rat)
    (p : String) (h : p ≠ "") :
    updateDatabase cfg p w Category.directories =
      some { path := p, weight := w, category := Category.directories } := by
  unfold updateDatabase
  simp [h]

/-- Folding further rapid calls over a state with a pending timer keeps the
fired log unchanged and leaves the timer of the last call pending. -/
theorem debStep_loop (delay : Nat) (cs : List (Nat × String)) :
    ∀ (t : Nat) (p : String) (f : List (Nat × String)),
      rapidCalls delay ((t, p) :: cs) = true →
      cs.foldl (debStep delay) { pending := some (t + delay, p), fired := f } =
        { pending := some ((cs.getLastD (t, p)).1 + delay, (cs.getLastD (t, p)).2),
          fired := f } := by
  induction cs with
  | nil => intro t p f _; rfl
  | cons c rest ih =>
    intro t p f h
    obtain ⟨u, q⟩ := c
    simp only [rapidCalls, Bool.and_eq_true, decide_eq_true_eq] at h
    obtain ⟨⟨h1, h2⟩, h3⟩ := h
    have hne : ¬ (t + delay ≤ u) := by omega
    have hstep : debStep delay { pending := some (t + delay, p), fired := f } (u, q) =
        { pending := some (u + delay, q), fired := f } := by
      simp [debStep, hne]
    simp only [List.foldl_cons, List.getLastD_cons]
    rw [hstep]
    exact ih u q f h3

/-- The rendered slot after a session run is the last arrival, whatever the
starting state. -/
theorem session_foldl_rendered (events : List SessionEvent) :
    ∀ s : SessionState,
      (events.foldl sessionStep s).rendered =
        match lastArrival events with
        | some gr => some (gr.1, renderItems gr.2)
        | none => s.rendered := by
  induction events with
  | nil => intro s; rfl
  | cons e rest ih =>
    intro s
    cases e with
    | issue g =>
      simp only [List.foldl_cons, lastArrival]
      rw [ih]
      cases lastArrival rest <;> simp [sessionStep]
    | arrive g r =>
      simp only [List.foldl_cons, lastArrival]
      rw [ih]
      cases lastArrival rest <;> simp [sessionStep]

/-! ## Claim theorems -/

/-- Claim C1, counterexample: in the interleaving issue 0, issue 1,
arrive 1, arrive 0 the session ends with the generation-0 response rendered
even though generation 1 is the highest issued — the code applies every
arriving response unconditionally, so the claimed lower-generation discard
does not happen. -/
def staleTrace : List SessionEvent :=
  [SessionEvent.issue 0, SessionEvent.issue 1,
   SessionEvent.arrive 1 ["~/fresh.txt"], SessionEvent.arrive 0 ["~/stale.txt"]]

/-- Claim C1 is false on the code: after `staleTrace` the highest issued
generation is 1, yet the rendered results are those of the generation-0
response that arrived last. -/
theorem stale_arrival_overwrites_newer :
    (runSession staleTrace).highestIssued = some 1 ∧
    (runSession staleTrace).rendered = some (0, renderItems ["~/stale.txt"]) :=
  ⟨rfl, rfl⟩

/-- Claim C1 as amended: the session renders whichever response arrived
most recently, regardless of issuance order — `updateResults` assigns
`quickPick.items` with no generation check, so arrival order, not issuance
order, decides what is rendered. -/
theorem session_renders_most_recent_arrival (events : List SessionEvent) :
    (runSession events).rendered =
      (lastArrival events).map (fun gr => (gr.1, renderItems gr.2)) := by
  unfold runSession
  rw [session_foldl_rendered]
  cases lastArrival events <;> rfl

/-- Claim C2: when consecutive `trackActive` calls are separated by less
than `debounceDelay`, the whole burst dispatches exactly one update, firing
`debounceDelay` ms after the last call and carrying its path; no earlier
path of the burst is ever dispatched. -/
theorem debounced_tracker_single_trailing_dispatch (delay : Nat)
    (c : Nat × String) (cs : List (Nat × String))
    (h : rapidCalls delay (c :: cs) = true) :
    debRun delay (c :: cs) =
      [((cs.getLastD c).1 + delay, (cs.getLastD c).2)] := by
  obtain ⟨t, p⟩ := c
  unfold debRun
  have hstep : debStep delay { pending := none, fired := [] } (t, p) =
      { pending := some (t + delay, p), fired := [] } := by
    simp [debStep]
  simp only [List.foldl_cons]
  rw [hstep, debStep_loop delay cs t p [] h]
  rfl

/-- Claim C2, witness: delay 500, calls A at 0, B at 100, C at 450 — the
single dispatch is C at time 950. -/
theorem debounced_tracker_single_trailing_dispatch_witness :
    rapidCalls 500 [(0, "A"), (100, "B"), (450, "C")] = true ∧
    debRun 500 [(0, "A"), (100, "B"), (450, "C")] = [(950, "C")] :=
  ⟨by decide,
   by simpa using
     debounced_tracker_single_trailing_dispatch 500 (0, "A")
       [(100, "B"), (450, "C")] (by decide)⟩

/-- Claim C3 is false as stated: `/a/node_modules/b.js` matches the
configured exclusion glob `**/node_modules/**` under the spec's
glob-matching relation, yet `updateDatabase` still dispatches it with
category `files`, because `shouldTrackFile` only tests whether the raw
pattern text occurs as a substring of the path — which fails for
glob-format patterns. -/
theorem glob_matched_path_still_dispatched :
    globConfig.excludePatterns.any
      (fun pat => specGlobMatch pat "/a/node_modules/b.js") = true ∧
    strIncludes "/a/node_modules/b.js" "**/node_modules/**" = false ∧
    shouldTrackFile globConfig "/a/node_modules/b.js" = true ∧
    updateDatabase globConfig "/a/node_modules/b.js" 1 Category.files =
      some { path := "/a/node_modules/b.js", weight := 1,
             category := Category.files } :=
  ⟨by decide, by decide, by decide, by decide⟩

/-- Claim C3 as amended: a `recordUsage` call with category `files` never
reaches the external update operation when the path is empty, contains a
colon, or contains one of the configured exclusion patterns as a substring
(the code's `includes` test); merely glob-matching a pattern does not
suppress the update. -/
theorem files_update_filtered_never_dispatches (cfg : JumperConfig)
    (w : Rat) (p : String)
    (h : p = "" ∨ strIncludes p ":" = true ∨
         cfg.excludePatterns.any (fun pat => strIncludes p pat) = true) :
    updateDatabase cfg p w Category.files = none := by
  unfold updateDatabase
  by_cases hp : p = ""
  · simp [hp]
  · have hs : shouldTrackFile cfg p = false := by
      unfold shouldTrackFile
      rcases h with h | h | h
      · exact absurd h hp
      · simp [hp, h]
      · by_cases hc : strIncludes p ":" = true
        · simp [hp, hc]
        · simp [hp, hc, h]
    simp [hp, hs]

/-- Claim C3, witness: an excluded path (it contains the configured pattern
`node_modules`) issues no update call. -/
theorem files_update_filtered_never_dispatches_witness :
    (("/x/node_modules/y.js" : String) = "" ∨
      strIncludes "/x/node_modules/y.js" ":" = true ∨
      demoConfig.excludePatterns.any
        (fun pat => strIncludes "/x/node_modules/y.js" pat) = true) ∧
    updateDatabase demoConfig "/x/node_modules/y.js" 1 Category.files = none :=
  ⟨Or.inr (Or.inr (by decide)),
   files_update_filtered_never_dispatches demoConfig 1 "/x/node_modules/y.js"
     (Or.inr (Or.inr (by decide)))⟩

/-- Claim C4: the rendered list is exactly the external response, in order:
the stored paths of the rendered items are the response sequence itself (so
no re-sorting, filtering, deduplication or truncation happens client-side),
and every item is marked `alwaysShow` to defeat the widget's own
filtering. -/
theorem rendered_list_is_exact_response (results : List String) :
    (renderItems results).map QuickPickItem.path = results ∧
    (renderItems results).map QuickPickItem.description = results ∧
    (renderItems results).length = results.length ∧
    ∀ i ∈ renderItems results, i.alwaysShow = true := by
  refine ⟨?_, ?_, by simp [renderItems], ?_⟩
  · simp [renderItems, renderItem, List.map_map, Function.comp_def]
  · simp [renderItems, renderItem, List.map_map, Function.comp_def]
  · intro i hi
    simp only [renderItems, List.mem_map] at hi
    obtain ⟨pth, _, rfl⟩ := hi
    rfl

/-- Claim C5: an invocation failure of the external find operation makes
`executeJumper` return the empty list and write only a diagnostic; no run of
`executeJumper` ever surfaces an error to the caller. -/
theorem query_failure_yields_empty_never_raises (msg : String) :
    (executeJumper (ExecResult.err msg)).result = Except.ok [] ∧
    (executeJumper (ExecResult.err msg)).diagnostics =
      ["Jumper command failed: " ++ msg] ∧
    ∀ r : ExecResult, ∃ lines, (executeJumper r).result = Except.ok lines := by
  refine ⟨rfl, rfl, ?_⟩
  intro r
  cases r <;> exact ⟨_, rfl⟩

/-- A stdout fixture whose first line carries ANSI color codes and whose
second line is whitespace only. -/
def ansiStdout : String := "\x1b[31mmain.c\x1b[0m\n   \nREADME.md"

/-- Claim C6 is false on the current code: the query dispatcher in
`database.js` keeps the ANSI escape sequence in the first line (only the
superseded `extension.js` revision stripped it), and the whitespace-only
interior line survives per-line trimming as an empty string instead of
being removed. -/
theorem current_parser_keeps_ansi_and_empty_line :
    parseJumperOutput ansiStdout =
      ["\x1b[31mmain.c\x1b[0m", "", "README.md"] ∧
    "" ∈ parseJumperOutput ansiStdout ∧
    stripAnsiCodes "\x1b[31mmain.c\x1b[0m" = "main.c" ∧
    "\x1b[31mmain.c\x1b[0m" ≠ "main.c" ∧
    parseJumperOutputLegacy ansiStdout = ["main.c", "", "README.md"] :=
  ⟨by decide, by decide, by decide, by decide, by decide⟩

/-- Claim C6 as amended: on success the query returns the trimmed stdout
split at newlines, keeping exactly the lines that are non-empty before
per-line trimming, each kept line then trimmed — without ANSI stripping,
and with whitespace-only lines surviving as empty strings. -/
theorem query_output_is_trimmed_kept_lines (stdout : String) :
    parseJumperOutput stdout =
      ((splitChar '\n' (jsTrim stdout)).filter (fun l => l ≠ "")).map jsTrim ∧
    ∀ l ∈ parseJumperOutput stdout,
      ∃ raw, raw ∈ splitChar '\n' (jsTrim stdout) ∧ raw ≠ "" ∧ l = jsTrim raw := by
  have hf : (splitChar '\n' (jsTrim stdout)).filter (fun l => 0 < l.length) =
      (splitChar '\n' (jsTrim stdout)).filter (fun l => l ≠ "") :=
    List.filter_congr (fun l _ => str_length_pos_eq_ne_empty l)
  constructor
  · unfold parseJumperOutput
    rw [hf]
  · intro l hl
    unfold parseJumperOutput at hl
    rw [hf] at hl
    simp only [List.mem_map, List.mem_filter, decide_eq_true_eq] at hl
    obtain ⟨raw, ⟨hmem, hne⟩, rfl⟩ := hl
    exact ⟨raw, hmem, hne, rfl⟩

/-- Claim C7: for a result path with a leading home-tilde, the rendered
item's description keeps the tilde form, while the selection continuations
(open-file, and the directory continuation's listing) operate on the
expanded `home ++ rest` form. -/
theorem tilde_display_preserved_fs_expanded (home p : String)
    (h : jsStartsWith p "~" = true) :
    (renderItem p).description = p ∧
    expandTilde home p = home ++ strDrop p 1 ∧
    jumpToFileOnSelect home p = [Effect.openFile (home ++ strDrop p 1)] ∧
    ∀ (cfg : JumperConfig) (files : List String),
      Effect.listing (pickFileRequest cfg.excludePatterns (home ++ strDrop p 1)) ∈
        jumpToDirectoryOnSelect cfg home p files := by
  have he : expandTilde home p = home ++ strDrop p 1 := by
    simp [expandTilde, h]
  refine ⟨rfl, he, by simp [jumpToFileOnSelect, he], ?_⟩
  intro cfg files
  unfold jumpToDirectoryOnSelect
  rw [he]
  by_cases hf : files.length = 0 <;>
    cases hu : updateDatabase cfg (home ++ strDrop p 1)
        (getWeight cfg WeightKind.visit) Category.directories <;>
      simp [pickFileInDirectoryEffects, hf]

/-- Claim C7, witness: path `~/notes.txt` with home `/home/u` keeps
`~/notes.txt` on screen and opens `/home/u/notes.txt`. -/
theorem tilde_display_preserved_fs_expanded_witness :
    jsStartsWith "~/notes.txt" "~" = true ∧
    ((renderItem "~/notes.txt").description = "~/notes.txt" ∧
     expandTilde "/home/u" "~/notes.txt" = "/home/u" ++ strDrop "~/notes.txt" 1 ∧
     jumpToFileOnSelect "/home/u" "~/notes.txt" =
       [Effect.openFile ("/home/u" ++ strDrop "~/notes.txt" 1)] ∧
     ∀ (cfg : JumperConfig) (files : List String),
       Effect.listing
           (pickFileRequest cfg.excludePatterns
             ("/home/u" ++ strDrop "~/notes.txt" 1)) ∈
         jumpToDirectoryOnSelect cfg "/home/u" "~/notes.txt" files) :=
  ⟨by decide, tilde_display_preserved_fs_expanded "/home/u" "~/notes.txt" (by decide)⟩

/-- Claim C8: the nested directory pick issues exactly one filesystem
listing request (capped at `MAX_FILES_IN_DIRECTORY = 1000` and excluded by
the brace-joined exclusion glob), issues no live jumper query at all, and —
under the listing collaborator's cap contract — shows at most 1000 items. -/
theorem nested_pick_one_shot_capped (cfg : JumperConfig) (dirPath : String)
    (files : List String) (h : files.length ≤ MAX_FILES_IN_DIRECTORY) :
    (pickFileInDirectoryEffects cfg dirPath files).filter Effect.isListing =
      [Effect.listing (pickFileRequest cfg.excludePatterns dirPath)] ∧
    (∀ e ∈ pickFileInDirectoryEffects cfg dirPath files,
       Effect.isJumperFind e = false) ∧
    (pickFileRequest cfg.excludePatterns dirPath).cap = 1000 ∧
    (pickFileRequest cfg.excludePatterns dirPath).excludeGlob =
      "\x7b" ++ joinWith "," cfg.excludePatterns ++ "\x7d" ∧
    ∀ items, Effect.showStaticPick items ∈ pickFileInDirectoryEffects cfg dirPath files →
      items.length ≤ 1000 := by
  refine ⟨?_, ?_, rfl, rfl, ?_⟩
  · by_cases hf : files.length = 0 <;>
      simp [pickFileInDirectoryEffects, hf, Effect.isListing, List.filter]
  · intro e he
    by_cases hf : files.length = 0 <;>
      simp only [pickFileInDirectoryEffects, hf, if_true, if_false,
        List.mem_cons, List.mem_singleton, List.not_mem_nil] at he <;>
      rcases he with rfl | rfl | he <;> first | rfl | exact absurd he (by simp)
  · intro items hmem
    by_cases hf : files.length = 0 <;>
      simp only [pickFileInDirectoryEffects, hf, if_true, if_false,
        List.mem_cons, List.mem_singleton, List.not_mem_nil] at hmem
    · rcases hmem with h1 | h1 | h1 <;> simp_all
    · rcases hmem with h1 | h1 | h1
      · simp_all
      · have : items = files.map (nestedItem dirPath) := by
          injection h1
        subst this
        simpa [MAX_FILES_IN_DIRECTORY] using h
      · simp_all

/-- Claim C8, witness: a one-file listing in `/home/u/proj` with the demo
configuration. -/
theorem nested_pick_one_shot_capped_witness :
    ([("/home/u/proj/a.c" : String)].length ≤ MAX_FILES_IN_DIRECTORY) ∧
    ((pickFileInDirectoryEffects demoConfig "/home/u/proj" ["/home/u/proj/a.c"]).filter
        Effect.isListing =
      [Effect.listing (pickFileRequest demoConfig.excludePatterns "/home/u/proj")] ∧
     (∀ e ∈ pickFileInDirectoryEffects demoConfig "/home/u/proj" ["/home/u/proj/a.c"],
        Effect.isJumperFind e = false) ∧
     (pickFileRequest demoConfig.excludePatterns "/home/u/proj").cap = 1000 ∧
     (pickFileRequest demoConfig.excludePatterns "/home/u/proj").excludeGlob =
       "\x7b" ++ joinWith "," demoConfig.excludePatterns ++ "\x7d" ∧
     ∀ items, Effect.showStaticPick items ∈
         pickFileInDirectoryEffects demoConfig "/home/u/proj" ["/home/u/proj/a.c"] →
       items.length ≤ 1000) :=
  ⟨by decide,
   nested_pick_one_shot_capped demoConfig "/home/u/proj" ["/home/u/proj/a.c"]
     (by decide)⟩

/-- Claim C9: directory updates bypass the file path filter — a non-empty
directory path is sent to the external update operation even when
`shouldTrackFile` rejects it (colon, exclusion pattern); only the
empty-path guard applies. -/
theorem directories_update_bypasses_file_filter (cfg : JumperConfig)
    (w : Rat) (p : String) (hne : p ≠ "")
    (_hblocked : shouldTrackFile cfg p = false) :
    updateDatabase cfg p w Category.directories =
      some { path := p, weight := w, category := Category.directories } :=
  updateDatabase_directories_eq cfg w p hne

/-- Claim C9, witness: a directory path that both contains a colon and
contains the configured pattern `node_modules` is still dispatched. -/
theorem directories_update_bypasses_file_filter_witness :
    (("/x/node_modules/a:b" : String) ≠ "") ∧
    shouldTrackFile demoConfig "/x/node_modules/a:b" = false ∧
    updateDatabase demoConfig "/x/node_modules/a:b" 1 Category.directories =
      some { path := "/x/node_modules/a:b", weight := 1,
             category := Category.directories } :=
  ⟨by decide, by decide,
   directories_update_bypasses_file_filter demoConfig 1 "/x/node_modules/a:b"
     (by decide) (by decide)⟩

/-- Claim C10: selecting a directory dispatches one usage update for the
expanded directory path — weight `getWeight('visit')`, category
`directories` — and only then issues the nested listing in that
directory. -/
theorem directory_selection_update_precedes_listing (cfg : JumperConfig)
    (home dirPath : String) (files : List String)
    (h : expandTilde home dirPath ≠ "") :
    (jumpToDirectoryOnSelect cfg home dirPath files).take 2 =
      [Effect.updateDb { path := expandTilde home dirPath,
                         weight := getWeight cfg WeightKind.visit,
                         category := Category.directories },
       Effect.listing
         (pickFileRequest cfg.excludePatterns (expandTilde home dirPath))] := by
  have hu := updateDatabase_directories_eq cfg (getWeight cfg WeightKind.visit)
    (expandTilde home dirPath) h
  by_cases hf : files.length = 0 <;>
    simp [jumpToDirectoryOnSelect, pickFileInDirectoryEffects, hu, hf]

/-- Claim C10, witness: selecting `~/proj` with home `/home/u` first updates
the directory `/home/u/proj`, then lists it. -/
theorem directory_selection_update_precedes_listing_witness :
    expandTilde "/home/u" "~/proj" ≠ "" ∧
    (jumpToDirectoryOnSelect demoConfig "/home/u" "~/proj"
        ["/home/u/proj/a.c"]).take 2 =
      [Effect.updateDb { path := expandTilde "/home/u" "~/proj",
                         weight := getWeight demoConfig WeightKind.visit,
                         category := Category.directories },
       Effect.listing
         (pickFileRequest demoConfig.excludePatterns
           (expandTilde "/home/u" "~/proj"))] :=
  ⟨by decide,
   directory_selection_update_precedes_listing demoConfig "/home/u" "~/proj"
     ["/home/u/proj/a.c"] (by decide)⟩

end JumperBridge
